import Mathlib

/-!
Verification of the core components of the INNOVATIVE-SCHOOL platform
(role-based access control in backend/rbac.py, the Redis cache layer in
backend/cache.py, and the backup subsystem in backend/backup.py) against
its natural-language specification.  Python code is shallowly embedded:
strings are lists of characters, the Redis store / the file system / the
S3 bucket are explicit association lists, external sub-processes (pg_dump,
psql, file copies) are outcome parameters, and time is a natural number of
seconds.
-/

/-- Boolean test that the first list is an initial segment of the second
(the embedding of Python's `str.startswith`). -/
def leadsWith : List Char → List Char → Bool
  | [], _ => true
  | _ :: _, [] => false
  | p :: ps, c :: cs => decide (p = c) && leadsWith ps cs

/-- Boolean test that the first list is a final segment of the second
(the embedding of Python's `str.endswith`). -/
def endsWithL (suf s : List Char) : Bool := leadsWith suf.reverse s.reverse

/-- The permissions of backend/rbac.py (`class Permission(str, Enum)`). -/
inductive Permission where
  | CREATE_USER | READ_USER | UPDATE_USER | DELETE_USER
  | CREATE_STUDENT | READ_STUDENT | UPDATE_STUDENT | DELETE_STUDENT
  | ENROLL_STUDENT | UNENROLL_STUDENT
  | CREATE_TEACHER | READ_TEACHER | UPDATE_TEACHER | DELETE_TEACHER
  | ASSIGN_TEACHER
  | CREATE_CLASS | READ_CLASS | UPDATE_CLASS | DELETE_CLASS
  | MANAGE_CLASS_ENROLLMENT
  | CREATE_SUBJECT | READ_SUBJECT | UPDATE_SUBJECT | DELETE_SUBJECT
  | MARK_ATTENDANCE | READ_ATTENDANCE | UPDATE_ATTENDANCE | DELETE_ATTENDANCE
  | VIEW_ATTENDANCE_REPORTS
  | CREATE_GRADE | READ_GRADE | UPDATE_GRADE | DELETE_GRADE
  | VIEW_GRADE_REPORTS | GENERATE_REPORT_CARD
  | CREATE_PARENT | READ_PARENT | UPDATE_PARENT | DELETE_PARENT
  | LINK_PARENT_STUDENT
  | CREATE_NOTIFICATION | READ_NOTIFICATION | UPDATE_NOTIFICATION
  | DELETE_NOTIFICATION | SEND_NOTIFICATION
  | VIEW_SYSTEM_LOGS | MANAGE_SYSTEM_SETTINGS | BACKUP_DATA | RESTORE_DATA
  | VIEW_ANALYTICS | EXPORT_DATA | GENERATE_REPORTS
deriving DecidableEq, Repr

/-- The resources of backend/rbac.py (`class Resource(str, Enum)`). -/
inductive Resource where
  | USERS | STUDENTS | TEACHERS | CLASSES | SUBJECTS | ATTENDANCE | GRADES
  | PARENTS | NOTIFICATIONS | REPORTS | ANALYTICS | SYSTEM
deriving DecidableEq, Repr

open Permission in
/-- The `UserRole.admin` entry of `ROLE_PERMISSIONS` (rbac.py lines 109-163). -/
def adminPermissions : List Permission :=
  [CREATE_USER, READ_USER, UPDATE_USER, DELETE_USER,
   CREATE_STUDENT, READ_STUDENT, UPDATE_STUDENT, DELETE_STUDENT,
   ENROLL_STUDENT, UNENROLL_STUDENT,
   CREATE_TEACHER, READ_TEACHER, UPDATE_TEACHER, DELETE_TEACHER,
   ASSIGN_TEACHER,
   CREATE_CLASS, READ_CLASS, UPDATE_CLASS, DELETE_CLASS,
   MANAGE_CLASS_ENROLLMENT,
   CREATE_SUBJECT, READ_SUBJECT, UPDATE_SUBJECT, DELETE_SUBJECT,
   MARK_ATTENDANCE, READ_ATTENDANCE, UPDATE_ATTENDANCE, DELETE_ATTENDANCE,
   VIEW_ATTENDANCE_REPORTS,
   CREATE_GRADE, READ_GRADE, UPDATE_GRADE, DELETE_GRADE,
   VIEW_GRADE_REPORTS, GENERATE_REPORT_CARD,
   CREATE_PARENT, READ_PARENT, UPDATE_PARENT, DELETE_PARENT,
   LINK_PARENT_STUDENT,
   CREATE_NOTIFICATION, READ_NOTIFICATION, UPDATE_NOTIFICATION,
   DELETE_NOTIFICATION, SEND_NOTIFICATION,
   VIEW_SYSTEM_LOGS, MANAGE_SYSTEM_SETTINGS, BACKUP_DATA, RESTORE_DATA,
   VIEW_ANALYTICS, EXPORT_DATA, GENERATE_REPORTS]

open Permission in
/-- The `UserRole.teacher` entry of `ROLE_PERMISSIONS` (rbac.py lines 165-189). -/
def teacherPermissions : List Permission :=
  [READ_STUDENT, UPDATE_STUDENT, READ_TEACHER, UPDATE_TEACHER,
   READ_CLASS, MANAGE_CLASS_ENROLLMENT, READ_SUBJECT,
   MARK_ATTENDANCE, READ_ATTENDANCE, UPDATE_ATTENDANCE,
   VIEW_ATTENDANCE_REPORTS,
   CREATE_GRADE, READ_GRADE, UPDATE_GRADE, DELETE_GRADE,
   VIEW_GRADE_REPORTS, GENERATE_REPORT_CARD,
   READ_PARENT, READ_NOTIFICATION, SEND_NOTIFICATION,
   VIEW_ANALYTICS, GENERATE_REPORTS]

open Permission in
/-- The `UserRole.student` entry of `ROLE_PERMISSIONS` (rbac.py lines 191-201). -/
def studentPermissions : List Permission :=
  [READ_STUDENT, UPDATE_STUDENT, READ_CLASS, READ_ATTENDANCE,
   READ_GRADE, VIEW_GRADE_REPORTS, READ_PARENT, READ_NOTIFICATION]

open Permission in
/-- The `UserRole.parent` entry of `ROLE_PERMISSIONS` (rbac.py lines 203-215). -/
def parentPermissions : List Permission :=
  [READ_STUDENT, READ_CLASS, READ_ATTENDANCE, VIEW_ATTENDANCE_REPORTS,
   READ_GRADE, VIEW_GRADE_REPORTS, READ_PARENT, UPDATE_PARENT,
   READ_NOTIFICATION, SEND_NOTIFICATION]

/-- `ROLE_PERMISSIONS` of rbac.py.  `UserRole` is a `str` enum, so a member
compares and hashes equal to its string value; the dict is embedded as an
association list keyed by that string, which also lets an unrecognized role
value be passed, exactly as Python's dynamic typing allows. -/
def ROLE_PERMISSIONS : List (String × List Permission) :=
  [("admin", adminPermissions), ("teacher", teacherPermissions),
   ("student", studentPermissions), ("parent", parentPermissions)]

open Permission in
/-- `RESOURCE_PERMISSIONS` of rbac.py (lines 220-299); the dict has an entry
for every `Resource` member, so it is a total function. -/
def RESOURCE_PERMISSIONS : Resource → List Permission
  | .USERS => [CREATE_USER, READ_USER, UPDATE_USER, DELETE_USER]
  | .STUDENTS => [CREATE_STUDENT, READ_STUDENT, UPDATE_STUDENT,
      DELETE_STUDENT, ENROLL_STUDENT, UNENROLL_STUDENT]
  | .TEACHERS => [CREATE_TEACHER, READ_TEACHER, UPDATE_TEACHER,
      DELETE_TEACHER, ASSIGN_TEACHER]
  | .CLASSES => [CREATE_CLASS, READ_CLASS, UPDATE_CLASS, DELETE_CLASS,
      MANAGE_CLASS_ENROLLMENT]
  | .SUBJECTS => [CREATE_SUBJECT, READ_SUBJECT, UPDATE_SUBJECT,
      DELETE_SUBJECT]
  | .ATTENDANCE => [MARK_ATTENDANCE, READ_ATTENDANCE, UPDATE_ATTENDANCE,
      DELETE_ATTENDANCE, VIEW_ATTENDANCE_REPORTS]
  | .GRADES => [CREATE_GRADE, READ_GRADE, UPDATE_GRADE, DELETE_GRADE,
      VIEW_GRADE_REPORTS, GENERATE_REPORT_CARD]
  | .PARENTS => [CREATE_PARENT, READ_PARENT, UPDATE_PARENT, DELETE_PARENT,
      LINK_PARENT_STUDENT]
  | .NOTIFICATIONS => [CREATE_NOTIFICATION, READ_NOTIFICATION,
      UPDATE_NOTIFICATION, DELETE_NOTIFICATION, SEND_NOTIFICATION]
  | .REPORTS => [VIEW_ANALYTICS, EXPORT_DATA, GENERATE_REPORTS]
  | .ANALYTICS => [VIEW_ANALYTICS, EXPORT_DATA]
  | .SYSTEM => [VIEW_SYSTEM_LOGS, MANAGE_SYSTEM_SETTINGS, BACKUP_DATA,
      RESTORE_DATA]

/-- `RBACService.get_user_permissions`: `ROLE_PERMISSIONS.get(user_role, set())`. -/
def get_user_permissions (role : String) : List Permission :=
  match ROLE_PERMISSIONS.find? (fun rp => rp.1 == role) with
  | some rp => rp.2
  | none => []

/-- `RBACService.has_permission`: `permission in user_permissions`. -/
def has_permission (role : String) (p : Permission) : Bool :=
  decide (p ∈ get_user_permissions role)

/-- `RBACService.has_any_permission`: `any(p in user_permissions for p in permissions)`. -/
def has_any_permission (role : String) (ps : List Permission) : Bool :=
  ps.any (fun p => decide (p ∈ get_user_permissions role))

/-- `RBACService.has_all_permissions`: `all(p in user_permissions for p in permissions)`. -/
def has_all_permissions (role : String) (ps : List Permission) : Bool :=
  ps.all (fun p => decide (p ∈ get_user_permissions role))

/-- `RBACService.can_access_resource`: the role's permission set intersects
the resource's permission set (`bool(user_permissions.intersection(...))`). -/
def can_access_resource (role : String) (res : Resource) : Bool :=
  (get_user_permissions role).any (fun p => decide (p ∈ RESOURCE_PERMISSIONS res))

/-! ### Cache layer (backend/cache.py)

The external Redis store is an association list of entries; `decode_responses`
is off, so stored values are raw byte strings, embedded as `List Char`.
Expiry is an absolute second count; a key whose expiry has passed behaves as
absent, as Redis guarantees.  A `connected` flag embeds `self.redis_client`
being non-`None`; every operation checks it first, as the source does. -/

/-- One Redis entry: full key, stored bytes, optional absolute expiry time. -/
structure REntry where
  key : List Char
  dat : List Char
  expiresAt : Option Nat
deriving DecidableEq, Repr

/-- Redis lookup of the entry holding a key (at most one entry per key). -/
def rFind (st : List REntry) (k : List Char) : Option REntry :=
  st.find? (fun e => decide (e.key = k))

/-- Whether an entry is still live at time `now` (not past its expiry). -/
def rLive (now : Nat) (e : REntry) : Bool :=
  match e.expiresAt with
  | none => true
  | some t => decide (now < t)

/-- Redis `GET`: the stored bytes when the key exists and is unexpired. -/
def rGet (now : Nat) (st : List REntry) (k : List Char) : Option (List Char) :=
  match rFind st k with
  | none => none
  | some e => if rLive now e then some e.dat else none

/-- Redis `SET key val EX ttl`: overwrite the key with expiry `now + ttl`. -/
def rSet (now ttl : Nat) (k d : List Char) (st : List REntry) : List REntry :=
  ⟨k, d, some (now + ttl)⟩ :: st.filter (fun e => !decide (e.key = k))

/-- Redis `TTL`: remaining seconds; -1 for a live key with no expiry; -2 for
a key that does not exist (or has expired). -/
def rTtlCmd (now : Nat) (st : List REntry) (k : List Char) : Int :=
  match rFind st k with
  | none => -2
  | some e =>
    if rLive now e then
      match e.expiresAt with
      | none => -1
      | some t => (t : Int) - (now : Int)
    else -2

/-- `CacheManager.ttl` (cache.py lines 168-178): -1 when the client is not
connected (or a `RedisError` is raised), otherwise the store's `TTL` reply
passed through unchanged. -/
def cmTtl (connected : Bool) (keyPre : List Char) (now : Nat)
    (st : List REntry) (k : List Char) : Int :=
  if connected then rTtlCmd now st (keyPre ++ k) else -1

/-- The effective TTL of `CacheManager.set`: Python's
`ttl = ttl or self.config.default_ttl` falls back to the default both for
`None` and for a zero argument. -/
def effTtl (ttl : Option Nat) (dflt : Nat) : Nat :=
  match ttl with
  | none => dflt
  | some 0 => dflt
  | some (n + 1) => n + 1

/-- `CacheManager.set` (no `nx`/`xx`): serialize, write under the prefixed
key with the effective TTL; `(st, false)` when not connected. -/
def cmSet (connected : Bool) (keyPre : List Char) (dflt : Nat) (now : Nat)
    (st : List REntry) (k d : List Char) (ttl : Option Nat) :
    List REntry × Bool :=
  if connected then (rSet now (effTtl ttl dflt) (keyPre ++ k) d st, true)
  else (st, false)

/-- `CacheManager.get` up to deserialization: the raw stored bytes, `none`
on a miss or when not connected. -/
def cmGetRaw (connected : Bool) (keyPre : List Char) (now : Nat)
    (st : List REntry) (k : List Char) : Option (List Char) :=
  if connected then rGet now st (keyPre ++ k) else none

/-- The `cached()` decorator applied to one invocation (cache.py lines
262-299).  `α` is the argument tuple type, `V` the type of Python values
other than `None`, so a Python result is an `Option V` and the `None`
returned by `cache.get` on a miss is `Option.none` — exactly the conflation
the source's `if cached_result is not None` lives with.  `ser`/`deser`
embed `_serialize`/`_deserialize`, `keyFn` the derived cache key (the
caller-supplied `key_func` or the default name-plus-argument-hash key),
`cacheCond` the optional `cache_condition`.  Returns the result, the store
after the call, and whether the wrapped operation was invoked. -/
def cachedInvoke {α V : Type} (connected : Bool) (keyPre : List Char)
    (dflt : Nat) (ser : Option V → List Char) (deser : List Char → Option V)
    (ttl : Option Nat) (keyFn : α → List Char) (cacheCond : Option (α → Bool))
    (f : α → Option V) (now : Nat) (st : List REntry) (x : α) :
    Option V × List REntry × Bool :=
  if connected then
    let ck := keyFn x
    if (match cacheCond with | some c => !c x | none => false) then
      (f x, st, true)
    else
      match (match cmGetRaw true keyPre now st ck with
             | some bytes => deser bytes
             | none => none) with
      | some v => (some v, st, false)
      | none =>
        let r := f x
        (r, (cmSet true keyPre dflt now st ck (ser r) ttl).1, true)
  else (f x, st, true)

/-- Redis glob character-class body: after `[` (and an optional `^`), the
members up to the closing `]`; returns whether `c` matched and the pattern
rest after the class, following redis `stringmatchlen` (escaped members,
`a-b` ranges with the ends in either order, an unterminated class running to
the end of the pattern). -/
def classSpec : List Char → Char → Bool × List Char
  | [], _ => (false, [])
  | '\\' :: p :: ps, c =>
    let r := classSpec ps c
    (r.1 || decide (p = c), r.2)
  | ']' :: ps, _ => (false, ps)
  | a :: '-' :: b :: ps, c =>
    let lo := if decide (a ≤ b) then a else b
    let hi := if decide (a ≤ b) then b else a
    let r := classSpec ps c
    (r.1 || (decide (lo ≤ c) && decide (c ≤ hi)), r.2)
  | a :: ps, c =>
    let r := classSpec ps c
    (r.1 || decide (a = c), r.2)

/-- Redis glob matching with explicit fuel (every step shortens pattern
plus subject, so `pattern.length + s.length + 1` fuel is exact); `*`, `?`,
`[...]` classes with `^` negation, and backslash escapes, following redis
`stringmatchlen`. -/
def globMatchFuel : Nat → List Char → List Char → Bool
  | 0, _, _ => false
  | _ + 1, [], [] => true
  | _ + 1, [], _ :: _ => false
  | fuel + 1, '*' :: ps, s =>
    globMatchFuel fuel ps s ||
      (match s with
       | [] => false
       | _ :: ss => globMatchFuel fuel ('*' :: ps) ss)
  | fuel + 1, '?' :: ps, _ :: ss => globMatchFuel fuel ps ss
  | _ + 1, '?' :: _, [] => false
  | fuel + 1, '[' :: ps, c :: ss =>
    let body := match ps with | '^' :: t => t | _ => ps
    let neg : Bool := match ps with | '^' :: _ => true | _ => false
    let r := classSpec body c
    (if neg then !r.1 else r.1) && globMatchFuel fuel r.2 ss
  | _ + 1, '[' :: _, [] => false
  | fuel + 1, '\\' :: p :: ps, c :: ss => decide (p = c) && globMatchFuel fuel ps ss
  | fuel + 1, p :: ps, c :: ss => decide (p = c) && globMatchFuel fuel ps ss
  | _ + 1, _ :: _, [] => false

/-- Redis glob matching of a pattern against a key. -/
def globMatch (pat s : List Char) : Bool :=
  globMatchFuel (pat.length + s.length + 1) pat s

/-- Python `s.replace(pat, '')` with explicit fuel (`s.length` suffices):
removes every non-overlapping occurrence of `pat`, scanning left to right;
the empty pattern removes nothing. -/
def replaceAllFuel (pat : List Char) : Nat → List Char → List Char
  | _, [] => []
  | 0, s => s
  | fuel + 1, c :: rest =>
    if !pat.isEmpty && leadsWith pat (c :: rest) then
      replaceAllFuel pat fuel ((c :: rest).drop pat.length)
    else
      c :: replaceAllFuel pat fuel rest

/-- Python `s.replace(pat, '')`. -/
def replaceAll (pat s : List Char) : List Char :=
  replaceAllFuel pat s.length s

/-- Whether `pat` occurs as a contiguous segment of `s` (Python `pat in s`
for a non-empty `pat`). -/
def occursIn (pat : List Char) : List Char → Bool
  | [] => false
  | c :: rest => leadsWith pat (c :: rest) || occursIn pat rest

/-- `CacheManager.keys` (cache.py lines 180-192): ask the store for the keys
matching `key_prefix + pattern` — `storeKeys` is the store's full key list,
shared prefixes and all — then strip the prefix from each result with
`key.replace(self.config.key_prefix, '')`; empty when not connected or on a
store error. -/
def cmKeys (connected : Bool) (keyPre : List Char)
    (storeKeys : List (List Char)) (pat : List Char) : List (List Char) :=
  if connected then
    (storeKeys.filter (fun k => globMatch (keyPre ++ pat) k)).map (replaceAll keyPre)
  else []

/-- Serializer of the concrete witness instance for the `cached()` claim. -/
def wSer : Option Unit → List Char
  | none => ['n']
  | some _ => ['s']

/-- Deserializer of the concrete witness instance for the `cached()` claim. -/
def wDeser (l : List Char) : Option Unit :=
  if l = ['s'] then some () else none

/-! ### Backup subsystem (backend/backup.py)

The local file system is an association list from paths to contents; the S3
bucket an association list from object keys to contents.  The outcomes of the
external collaborators — `pg_dump`, the `psql` restore, the file-tree copy —
are inputs: an `Except` carrying either the raised error message or the
produced data.  gzip is modelled as an injective encoding that prepends the
two gzip magic bytes; decoding anything not starting with them raises (is
`none`), as `gzip.open` does on a non-gzip file. -/

/-- `BackupType` of backup.py. -/
inductive BackupType where
  | full | incremental | differential
deriving DecidableEq, Repr

/-- The `.value` string of a `BackupType` member. -/
def BackupType.value : BackupType → List Char
  | .full => "full".toList
  | .incremental => "incremental".toList
  | .differential => "differential".toList

/-- `BackupStatus` of backup.py (`PARTIAL` is spelled out, `partial` being
reserved here). -/
inductive BackupStatus where
  | success | failed | in_progress | partialStatus
deriving DecidableEq, Repr

/-- `BackupInfo` of backup.py; the timestamp is a second count. -/
structure BackupInfo where
  backup_id : List Char
  backup_type : BackupType
  timestamp : Nat
  status : BackupStatus
  size_bytes : Nat
  file_path : List Char
  metadata : List (List Char × List Char)
deriving DecidableEq, Repr

/-- A local file system: path to content. -/
def FS := List (List Char × List Char)

/-- Content of a file, `none` when the path does not exist. -/
def fsGet (fs : FS) (p : List Char) : Option (List Char) :=
  match List.find? (fun e => decide (e.1 = p)) fs with
  | some e => some e.2
  | none => none

/-- Write (create or overwrite) a file. -/
def fsWrite (fs : FS) (p d : List Char) : FS :=
  (p, d) :: List.filter (fun e => !decide (e.1 = p)) fs

/-- `os.remove`. -/
def fsErase (fs : FS) (p : List Char) : FS :=
  List.filter (fun e => !decide (e.1 = p)) fs

/-- `os.path.getsize` of an existing file. -/
def fsSize (fs : FS) (p : List Char) : Nat :=
  match fsGet fs p with
  | some d => d.length
  | none => 0

/-- The two gzip magic bytes. -/
def gzMagic : List Char := ['\x1F', '\x8B']

/-- Environment model of gzip compression: an injective encoding prepending
the gzip magic bytes. -/
def gzipE (d : List Char) : List Char := gzMagic ++ d

/-- Environment model of gzip decompression: `none` (an exception in the
source) unless the data starts with the gzip magic bytes. -/
def gunzipE (s : List Char) : Option (List Char) :=
  if leadsWith gzMagic s then some (s.drop 2) else none

/-- The configuration and external outcomes a backup run sees: the relevant
`BackupConfig` fields, the shared timestamp (as a second count and as the
`%Y%m%d_%H%M%S` string used in ids), the result of the `pg_dump` invocation
(error message or dump bytes), the result of the file-tree copy (error
message or the copied files as relative path/content pairs), and whether an
S3 bucket is configured. -/
structure BackupEnv where
  compression : Bool
  encryption : Bool
  backupDir : List Char
  dbName : List Char
  dbHost : List Char
  srcPathsStr : List Char
  tsNum : Nat
  tsStr : List Char
  pgDumpRes : Except (List Char) (List Char)
  fileCopyRes : Except (List Char) (List (List Char × List Char))
  s3conf : Bool

/-- The success metadata of `DatabaseBackup.create_backup`. -/
def dbSuccessMeta (env : BackupEnv) : List (List Char × List Char) :=
  [("database".toList, env.dbName), ("host".toList, env.dbHost),
   ("compressed".toList, if env.compression then "True".toList else "False".toList),
   ("encrypted".toList, if env.encryption then "True".toList else "False".toList)]

/-- `DatabaseBackup.create_backup` (backup.py lines 98-172).  The backup id
is `db_<type>_<timestamp>`; `.gz` is appended to the file name up front when
compression is on; a failed dump yields a `failed` record with the error in
the metadata; after a successful dump the output is compressed only when the
path does not already end in `.gz`, and the recorded size is the size of the
file at the final path. -/
def db_create_backup (env : BackupEnv) (bt : BackupType) (fs : FS) :
    BackupInfo × FS :=
  let backup_id := "db_".toList ++ bt.value ++ "_".toList ++ env.tsStr
  let backup_file :=
    if env.compression then backup_id ++ ".sql".toList ++ ".gz".toList
    else backup_id ++ ".sql".toList
  let backup_path := env.backupDir ++ "/".toList ++ backup_file
  match env.pgDumpRes with
  | .error e =>
    ({ backup_id, backup_type := bt, timestamp := env.tsNum,
       status := .failed, size_bytes := 0, file_path := backup_path,
       metadata := [("error".toList, e)] }, fs)
  | .ok dump =>
    let fs1 := fsWrite fs backup_path dump
    if env.compression && !endsWithL ".gz".toList backup_path then
      let gzPath := backup_path ++ ".gz".toList
      let fs2 := fsErase (fsWrite fs1 gzPath (gzipE dump)) backup_path
      ({ backup_id, backup_type := bt, timestamp := env.tsNum,
         status := .success, size_bytes := fsSize fs2 gzPath,
         file_path := gzPath, metadata := dbSuccessMeta env }, fs2)
    else
      ({ backup_id, backup_type := bt, timestamp := env.tsNum,
         status := .success, size_bytes := fsSize fs1 backup_path,
         file_path := backup_path, metadata := dbSuccessMeta env }, fs1)

/-- `DatabaseBackup.restore_backup` (backup.py lines 174-223): `false` when
the file is missing; a `.gz` path is gunzipped first (an exception, e.g. on
non-gzip data, yields `false`); `psqlOk` is the external `psql` outcome on
the restored SQL text. -/
def db_restore_backup (fs : FS) (backup_path : List Char)
    (psqlOk : List Char → Bool) : Bool :=
  match fsGet fs backup_path with
  | none => false
  | some content =>
    if endsWithL ".gz".toList backup_path then
      match gunzipE content with
      | none => false
      | some d => psqlOk d
    else psqlOk content

/-- `FileBackup.create_backup` (backup.py lines 243-308): copies the
configured trees into `<backup_dir>/files_<type>_<timestamp>`, records the
total byte count and number of files copied; an exception yields a `failed`
record with the error in the metadata. -/
def file_create_backup (env : BackupEnv) (bt : BackupType) (fs : FS) :
    BackupInfo × FS :=
  let backup_id := "files_".toList ++ bt.value ++ "_".toList ++ env.tsStr
  let backup_dir := env.backupDir ++ "/".toList ++ backup_id
  match env.fileCopyRes with
  | .error e =>
    ({ backup_id, backup_type := bt, timestamp := env.tsNum,
       status := .failed, size_bytes := 0, file_path := backup_dir,
       metadata := [("error".toList, e)] }, fs)
  | .ok copied =>
    let fs1 := copied.foldl
      (fun acc pc => fsWrite acc (backup_dir ++ "/".toList ++ pc.1) pc.2) fs
    ({ backup_id, backup_type := bt, timestamp := env.tsNum,
       status := .success,
       size_bytes := copied.foldl (fun n pc => n + pc.2.length) 0,
       file_path := backup_dir,
       metadata := [("files_copied".toList, Nat.toDigits 10 copied.length),
                    ("source_paths".toList, env.srcPathsStr)] }, fs1)

/-- The S3 key of `S3Backup.upload_backup`:
`backups/<backup_type.value>/<backup_id>`. -/
def s3KeyOf (info : BackupInfo) : List Char :=
  "backups/".toList ++ info.backup_type.value ++ "/".toList ++ info.backup_id

/-- `S3Backup.upload_backup` (backup.py lines 325-352): a file artifact is
uploaded under its key; a directory artifact is walked and each file
uploaded under `<key>/<relative path>`. -/
def upload_backup (fs : FS) (bucket : List (List Char × List Char))
    (info : BackupInfo) : List (List Char × List Char) :=
  match fsGet fs info.file_path with
  | some content => (s3KeyOf info, content) :: bucket
  | none =>
    ((List.filter (fun e => leadsWith (info.file_path ++ "/".toList) e.1) fs).map
      (fun e => (s3KeyOf info ++ "/".toList ++ e.1.drop (info.file_path.length + 1),
                 e.2))) ++ bucket

/-- `S3Backup.download_backup` (backup.py lines 354-386): prefix-list the
bucket under `backups/<backup_id>` and fetch every object; `false` when not
configured or when the listing is empty. -/
def download_backup (connected : Bool) (bucket : List (List Char × List Char))
    (backup_id : List Char) : Bool :=
  if connected then
    !(List.filter (fun o => leadsWith ("backups/".toList ++ backup_id) o.1)
        bucket).isEmpty
  else false

/-- The world a `BackupManager` acts on: local files, the catalog (the parsed
content of `backup_log.json`) and the S3 bucket. -/
structure BackupWorld where
  fs : FS
  catalog : List BackupInfo
  bucket : List (List Char × List Char)

/-- `BackupManager._log_backups`: append the new records to the catalog. -/
def log_backups (catalog recs : List BackupInfo) : List BackupInfo :=
  catalog ++ recs

/-- `BackupManager.create_full_backup` (backup.py lines 398-421): database
backup, then file backup, upload each successful record to S3 when
configured, append both records to the catalog, return both. -/
def create_full_backup (env : BackupEnv) (w : BackupWorld) :
    List BackupInfo × BackupWorld :=
  let db := db_create_backup env .full w.fs
  let fb := file_create_backup env .full db.2
  let backups := [db.1, fb.1]
  let bucket1 :=
    if env.s3conf then
      backups.foldl
        (fun b r => if r.status = BackupStatus.success then upload_backup fb.2 b r else b)
        w.bucket
    else w.bucket
  (backups, ⟨fb.2, log_backups w.catalog backups, bucket1⟩)

/-- Newest-first order on backup records: `a` before `b` when `b`'s
timestamp is at most `a`'s (`sorted(key=timestamp, reverse=True)`). -/
def tsGe (a b : BackupInfo) : Prop := b.timestamp ≤ a.timestamp

instance : DecidableRel tsGe := fun a b => Nat.decLe b.timestamp a.timestamp

instance : IsTotal BackupInfo tsGe :=
  ⟨fun a b => Nat.le_total b.timestamp a.timestamp⟩

instance : IsTrans BackupInfo tsGe :=
  ⟨fun _ _ _ h1 h2 => Nat.le_trans h2 h1⟩

/-- `BackupManager.list_backups` (backup.py lines 507-527): every record of
the catalog file, sorted by timestamp descending. -/
def list_backups (catalog : List BackupInfo) : List BackupInfo :=
  List.insertionSort tsGe catalog

/-- An entry of the backup directory listing (`os.listdir`): name, whether
it is a directory, and its modification time. -/
structure DirItem where
  name : List Char
  isDir : Bool
  mtime : Nat
deriving DecidableEq, Repr

/-- Whether `BackupManager.cleanup_old_backups` deletes an item: a regular
file is removed whenever its modification time precedes the cutoff,
whatever its name; a directory only when its name also starts with `db_` or
`files_`. -/
def cleanupRemoves (cutoff : Nat) (it : DirItem) : Bool :=
  if it.isDir then
    (leadsWith "db_".toList it.name || leadsWith "files_".toList it.name)
      && decide (it.mtime < cutoff)
  else decide (it.mtime < cutoff)

/-- `BackupManager.cleanup_old_backups` (backup.py lines 483-505): the
backup-directory listing after one cleanup pass with cutoff
`now - retention_days` (in seconds). -/
def cleanup_old_backups (now retention_days : Nat) (items : List DirItem) :
    List DirItem :=
  items.filter (fun it => !cleanupRemoves (now - retention_days * 86400) it)

/-! ### Theorems -/

theorem teacher_subset_admin : ∀ p ∈ teacherPermissions, p ∈ adminPermissions := by
  decide

theorem student_subset_admin : ∀ p ∈ studentPermissions, p ∈ adminPermissions := by
  decide

theorem parent_subset_admin : ∀ p ∈ parentPermissions, p ∈ adminPermissions := by
  decide

theorem get_user_permissions_admin : get_user_permissions "admin" = adminPermissions := by
  rfl

/-- C2: for every role value R (the four recognized roles included) and every
permission p, if p is in the permission set resolved for R then p is in the
admin role's permission set. -/
theorem c2_admin_superset (role : String) (p : Permission)
    (hp : p ∈ get_user_permissions role) : p ∈ get_user_permissions "admin" := by
  rw [get_user_permissions_admin]
  unfold get_user_permissions at hp
  cases hfind : ROLE_PERMISSIONS.find? (fun rp => rp.1 == role) with
  | none => rw [hfind] at hp; simp at hp
  | some rp =>
    rw [hfind] at hp
    have hmem : rp ∈ ROLE_PERMISSIONS := List.mem_of_find?_eq_some hfind
    simp only [ROLE_PERMISSIONS, List.mem_cons, List.not_mem_nil, or_false] at hmem
    rcases hmem with h | h | h | h <;> subst h
    · exact hp
    · exact teacher_subset_admin p hp
    · exact student_subset_admin p hp
    · exact parent_subset_admin p hp

/-- Witness for C2 at a concrete input: READ_GRADE is granted to the parent
role, hence also to admin. -/
theorem c2_admin_superset_witness :
    Permission.READ_GRADE ∈ get_user_permissions "admin" :=
  c2_admin_superset "parent" Permission.READ_GRADE (by decide)

/-- C8: an unrecognized role value resolves to the empty permission set, and
every query of the resolver answers false for it (`has_all_permissions` on a
non-empty request); no operation can raise, all are total functions. -/
theorem c8_unknown_role (role : String)
    (hrole : role ∉ (["admin", "teacher", "student", "parent"] : List String)) :
    get_user_permissions role = []
    ∧ (∀ p, has_permission role p = false)
    ∧ (∀ ps, has_any_permission role ps = false)
    ∧ (∀ ps, ps ≠ [] → has_all_permissions role ps = false)
    ∧ (∀ res, can_access_resource role res = false) := by
  simp only [List.mem_cons, List.not_mem_nil, or_false, not_or] at hrole
  obtain ⟨h1, h2, h3, h4⟩ := hrole
  have hempty : get_user_permissions role = [] := by
    unfold get_user_permissions ROLE_PERMISSIONS
    simp only [List.find?]
    have b1 : (("admin" : String) == role) = false := by
      simp [beq_iff_eq]; exact fun h => h1 h.symm
    have b2 : (("teacher" : String) == role) = false := by
      simp [beq_iff_eq]; exact fun h => h2 h.symm
    have b3 : (("student" : String) == role) = false := by
      simp [beq_iff_eq]; exact fun h => h3 h.symm
    have b4 : (("parent" : String) == role) = false := by
      simp [beq_iff_eq]; exact fun h => h4 h.symm
    simp [b1, b2, b3, b4]
  refine ⟨hempty, ?_, ?_, ?_, ?_⟩
  · intro p; simp [has_permission, hempty]
  · intro ps; simp [has_any_permission, hempty]
  · intro ps hps
    cases ps with
    | nil => exact absurd rfl hps
    | cons q qs => simp [has_all_permissions, hempty]
  · intro res; simp [can_access_resource, hempty]

/-- Witness for C8 at the concrete unrecognized role value "superuser". -/
theorem c8_unknown_role_witness :
    get_user_permissions "superuser" = []
    ∧ has_permission "superuser" Permission.CREATE_USER = false
    ∧ has_any_permission "superuser" adminPermissions = false
    ∧ has_all_permissions "superuser" [Permission.READ_USER] = false
    ∧ can_access_resource "superuser" Resource.SYSTEM = false := by
  have h := c8_unknown_role "superuser" (by decide)
  exact ⟨h.1, h.2.1 _, h.2.2.1 _, h.2.2.2.1 _ (by simp), h.2.2.2.2 _⟩

/-- C6 (amended): `ttl(key)` returns the remaining seconds for a live key
with a TTL; it returns -1 both when the store is unavailable and when the
key exists without a TTL; but a key that does not exist (or has expired)
yields -2, Redis's reply passed through unchanged — so callers can
distinguish a missing key from the other cases. -/
theorem c6_ttl_codes (keyPre k : List Char) (now : Nat) (st : List REntry) :
    cmTtl false keyPre now st k = -1
    ∧ ((∀ e ∈ st, e.key = keyPre ++ k → rLive now e = false) →
        cmTtl true keyPre now st k = -2)
    ∧ (∀ d rest, st = ⟨keyPre ++ k, d, none⟩ :: rest →
        cmTtl true keyPre now st k = -1)
    ∧ (∀ d t rest, st = ⟨keyPre ++ k, d, some t⟩ :: rest → now < t →
        cmTtl true keyPre now st k = (t : Int) - (now : Int)) := by
  refine ⟨rfl, ?_, ?_, ?_⟩
  · intro h
    cases hf : rFind st (keyPre ++ k) with
    | none => simp [cmTtl, rTtlCmd, hf]
    | some e =>
      have hf2 : List.find? (fun x => decide (x.key = keyPre ++ k)) st = some e := hf
      have he : e ∈ st := List.mem_of_find?_eq_some hf2
      have hpe := List.find?_some hf2
      have hkey : e.key = keyPre ++ k := by simpa using hpe
      simp [cmTtl, rTtlCmd, hf, h e he hkey]
  · intro d rest hst
    subst hst
    simp [cmTtl, rTtlCmd, rFind, List.find?, rLive]
  · intro d t rest hst ht
    subst hst
    simp [cmTtl, rTtlCmd, rFind, List.find?, rLive, ht]

/-- C6 counterexample: with the store connected and the key absent, `ttl`
returns -2, not -1 — the claim that a missing key also yields -1 fails on
the code, which passes Redis's -2 reply through. -/
theorem c6_ttl_counterexample :
    cmTtl true "app:".toList 0 [] "k".toList = -2 ∧ ((-2 : Int) ≠ -1) :=
  ⟨rfl, by decide⟩

/-- Witness for the amended C6 at concrete inputs: unavailable store,
expired key, key without TTL, key with 4 seconds left. -/
theorem c6_ttl_witness :
    cmTtl false "p".toList 5 [] "k".toList = -1
    ∧ cmTtl true "p".toList 5 [⟨"pk".toList, [], some 3⟩] "k".toList = -2
    ∧ cmTtl true "p".toList 5 [⟨"pk".toList, [], none⟩] "k".toList = -1
    ∧ cmTtl true "p".toList 5 [⟨"pk".toList, [], some 9⟩] "k".toList = 4 := by
  refine ⟨(c6_ttl_codes "p".toList "k".toList 5 []).1, ?_, ?_, ?_⟩
  · exact (c6_ttl_codes "p".toList "k".toList 5 _).2.1 (by decide)
  · exact (c6_ttl_codes "p".toList "k".toList 5 _).2.2.1 [] [] rfl
  · have h := (c6_ttl_codes "p".toList "k".toList 5 _).2.2.2 [] 9 [] rfl (by decide)
    exact h.trans (by decide)

/-- C10: one cleanup pass deletes a regular file exactly when its
modification time precedes the retention cutoff, regardless of its name —
the catalog file `backup_log.json` included — while a directory is deleted
only when its name starts with `db_` or `files_` (an old directory with
another name survives). -/
theorem c10_cleanup (now rd : Nat) (items : List DirItem) (it : DirItem)
    (hmem : it ∈ items) :
    (it.isDir = false →
      (it ∈ cleanup_old_backups now rd items ↔ ¬ it.mtime < now - rd * 86400))
    ∧ (it.isDir = true →
      (it ∈ cleanup_old_backups now rd items ↔
        ¬ ((leadsWith "db_".toList it.name = true
            ∨ leadsWith "files_".toList it.name = true)
           ∧ it.mtime < now - rd * 86400))) := by
  constructor
  · intro hdir
    simp [cleanup_old_backups, List.mem_filter, hmem, cleanupRemoves, hdir]
  · intro hdir
    simp only [cleanup_old_backups, List.mem_filter, hmem, true_and,
      cleanupRemoves, hdir, if_true]
    cases hdb : leadsWith "db_".toList it.name <;>
      cases hfl : leadsWith "files_".toList it.name <;>
        by_cases hm : it.mtime < now - rd * 86400 <;>
          simp [hdb, hfl, hm]

/-- Witness for C10: a catalog file `backup_log.json` last written at time 0
is deleted by a cleanup running at day 40 with 30-day retention. -/
theorem c10_cleanup_witness :
    (⟨"backup_log.json".toList, false, 0⟩ : DirItem) ∉
      cleanup_old_backups (40 * 86400) 30 [⟨"backup_log.json".toList, false, 0⟩] := by
  intro hmemIn
  have h := (c10_cleanup (40 * 86400) 30 [⟨"backup_log.json".toList, false, 0⟩]
      ⟨"backup_log.json".toList, false, 0⟩ (by simp)).1 rfl
  exact (h.mp hmemIn) (by norm_num)

/-- C9: after any sequence of backup attempts is appended to the catalog,
`list_backups` returns exactly the catalog's records — same count, same
records with the statuses recorded when each attempt finished (a
permutation) — sorted by timestamp descending, and the folded catalog is
precisely the concatenation of all attempts' records. -/
theorem c9_list_backups (attempts : List (List BackupInfo)) :
    (list_backups (attempts.foldl log_backups [])).length
        = (attempts.foldl log_backups []).length
    ∧ List.Perm (list_backups (attempts.foldl log_backups []))
        (attempts.foldl log_backups [])
    ∧ attempts.foldl log_backups [] = attempts.flatten
    ∧ List.Pairwise tsGe (list_backups (attempts.foldl log_backups [])) := by
  refine ⟨?_, List.perm_insertionSort tsGe _, ?_, ?_⟩
  · exact List.length_insertionSort tsGe _
  · have hgen : ∀ (l : List (List BackupInfo)) (acc : List BackupInfo),
        l.foldl log_backups acc = acc ++ l.flatten := by
      intro l
      induction l with
      | nil => intro acc; simp
      | cons x xs ih => intro acc; simp [log_backups, ih, List.append_assoc]
    simpa using hgen attempts []
  · exact List.sorted_insertionSort tsGe _

/-- C4 at the failing input: uploading a successful database backup of type
`full` with id `db_full_20240101_000000` stores the artifact under the key
`backups/full/db_full_20240101_000000`, but `download_backup` with that very
id prefix-lists `backups/db_full_20240101_000000` — the `<type>/` segment is
missing — finds nothing and returns false: the upload and download key
namespaces do not agree. -/
theorem c4_upload_download_mismatch :
    upload_backup
        [("./backups/db_full_20240101_000000.sql.gz".toList, "SELECT 1;".toList)]
        []
        { backup_id := "db_full_20240101_000000".toList,
          backup_type := .full, timestamp := 0, status := .success,
          size_bytes := 9,
          file_path := "./backups/db_full_20240101_000000.sql.gz".toList,
          metadata := [] }
      = [("backups/full/db_full_20240101_000000".toList, "SELECT 1;".toList)]
    ∧ download_backup true
        [("backups/full/db_full_20240101_000000".toList, "SELECT 1;".toList)]
        "db_full_20240101_000000".toList = false := by
  exact ⟨rfl, rfl⟩

/-- C5 at the failing input: with compression enabled, the `.gz` suffix is
added to the file name before `pg_dump` runs, so the compression step's
`endswith('.gz')` guard always skips compression — the recorded artifact is
the raw dump under a `.gz` name, the recorded size is the raw size, and the
subsequent restore fails trying to gunzip non-gzip data even though `psql`
itself would succeed. -/
theorem c5_compression_skipped :
    (db_create_backup
        { compression := true, encryption := true,
          backupDir := "./backups".toList,
          dbName := "innovative_school".toList, dbHost := "localhost".toList,
          srcPathsStr := [], tsNum := 0, tsStr := "20240101_000000".toList,
          pgDumpRes := .ok "SELECT 1;".toList, fileCopyRes := .ok [],
          s3conf := false }
        .full []).1.status = .success
    ∧ (db_create_backup
        { compression := true, encryption := true,
          backupDir := "./backups".toList,
          dbName := "innovative_school".toList, dbHost := "localhost".toList,
          srcPathsStr := [], tsNum := 0, tsStr := "20240101_000000".toList,
          pgDumpRes := .ok "SELECT 1;".toList, fileCopyRes := .ok [],
          s3conf := false }
        .full []).1.file_path = "./backups/db_full_20240101_000000.sql.gz".toList
    ∧ fsGet
        (db_create_backup
          { compression := true, encryption := true,
            backupDir := "./backups".toList,
            dbName := "innovative_school".toList, dbHost := "localhost".toList,
            srcPathsStr := [], tsNum := 0, tsStr := "20240101_000000".toList,
            pgDumpRes := .ok "SELECT 1;".toList, fileCopyRes := .ok [],
            s3conf := false }
          .full []).2
        "./backups/db_full_20240101_000000.sql.gz".toList
        = some "SELECT 1;".toList
    ∧ some "SELECT 1;".toList ≠ some (gzipE "SELECT 1;".toList)
    ∧ (db_create_backup
        { compression := true, encryption := true,
          backupDir := "./backups".toList,
          dbName := "innovative_school".toList, dbHost := "localhost".toList,
          srcPathsStr := [], tsNum := 0, tsStr := "20240101_000000".toList,
          pgDumpRes := .ok "SELECT 1;".toList, fileCopyRes := .ok [],
          s3conf := false }
        .full []).1.size_bytes = ("SELECT 1;".toList).length
    ∧ db_restore_backup
        (db_create_backup
          { compression := true, encryption := true,
            backupDir := "./backups".toList,
            dbName := "innovative_school".toList, dbHost := "localhost".toList,
            srcPathsStr := [], tsNum := 0, tsStr := "20240101_000000".toList,
            pgDumpRes := .ok "SELECT 1;".toList, fileCopyRes := .ok [],
            s3conf := false }
          .full []).2
        "./backups/db_full_20240101_000000.sql.gz".toList
        (fun _ => true) = false := by
  exact ⟨rfl, rfl, rfl, by decide, rfl, rfl⟩

theorem leadsWith_append (p t : List Char) : leadsWith p (p ++ t) = true := by
  induction p with
  | nil => rfl
  | cons c cs ih => simp [leadsWith, ih]

theorem replaceAllFuel_no_occurs (pat : List Char) :
    ∀ (fuel : Nat) (s : List Char), s.length ≤ fuel →
      occursIn pat s = false → replaceAllFuel pat fuel s = s := by
  intro fuel
  induction fuel with
  | zero =>
    intro s hs _
    cases s with
    | nil => rfl
    | cons c r => simp at hs
  | succ n ih =>
    intro s hs hocc
    cases s with
    | nil => rfl
    | cons c rest =>
      simp only [occursIn, Bool.or_eq_false_iff] at hocc
      obtain ⟨h1, h2⟩ := hocc
      simp only [replaceAllFuel, h1, Bool.and_false, if_neg, Bool.false_eq_true,
        not_false_eq_true]
      have hr : rest.length ≤ n := by
        simpa [Nat.succ_le_succ_iff] using hs
      rw [ih rest hr h2]

theorem replaceAll_strip (pat k : List Char) (hp : pat ≠ [])
    (hk : occursIn pat k = false) : replaceAll pat (pat ++ k) = k := by
  cases pat with
  | nil => exact absurd rfl hp
  | cons p ps =>
    unfold replaceAll
    rw [List.cons_append]
    simp only [List.length_cons, replaceAllFuel]
    have hl : leadsWith (p :: ps) (p :: (ps ++ k)) = true := by
      rw [← List.cons_append]
      exact leadsWith_append _ _
    simp only [hl, List.isEmpty_cons, Bool.not_false, Bool.true_and, if_true,
      List.length_cons, List.drop_succ_cons]
    rw [List.drop_left]
    exact replaceAllFuel_no_occurs (p :: ps) (ps ++ k).length k
      (by simp) hk

theorem cmKeys_map_filter (kp pat : List Char) (hp : kp ≠ []) :
    ∀ (ks : List (List Char)), (∀ k ∈ ks, occursIn kp k = false) →
      ((ks.map (fun k => kp ++ k)).filter
          (fun s => globMatch (kp ++ pat) s)).map (replaceAll kp)
        = ks.filter (fun k => globMatch (kp ++ pat) (kp ++ k)) := by
  intro ks
  induction ks with
  | nil => intro _; rfl
  | cons k rest ih =>
    intro h
    have hk : occursIn kp k = false := h k (by simp)
    have hrest : ∀ a ∈ rest, occursIn kp a = false :=
      fun a ha => h a (by simp [ha])
    simp only [List.map_cons, List.filter_cons]
    by_cases hg : globMatch (kp ++ pat) (kp ++ k) = true
    · simp [hg, replaceAll_strip kp k hp hk, ih hrest]
    · rw [Bool.not_eq_true] at hg
      simp [hg, ih hrest]

/-- C7 (amended): `keys(pattern)` returns, for each stored key
`prefix + logical` matching `prefix + pattern`, the logical key with every
occurrence of the prefix removed (Python `str.replace`); this equals removal
of only the leading prefix — the remainder unchanged — exactly when the
logical key does not itself contain the prefix. -/
theorem c7_keys_amended (kp pat : List Char) (logicals : List (List Char))
    (hp : kp ≠ []) (hocc : ∀ k ∈ logicals, occursIn kp k = false) :
    cmKeys true kp (logicals.map (fun k => kp ++ k)) pat
      = logicals.filter (fun k => globMatch (kp ++ pat) (kp ++ k)) := by
  unfold cmKeys
  rw [if_pos rfl]
  exact cmKeys_map_filter kp pat hp logicals hocc

/-- C7 counterexample: with prefix "app:" and the stored key "app:xapp:y"
(logical key "xapp:y", which matches pattern "*"), `keys("*")` returns
"xy", not "xapp:y": `str.replace` removes every occurrence of the prefix,
not only the leading one, so the remainder is not left unchanged. -/
theorem c7_keys_counterexample :
    cmKeys true "app:".toList ["app:xapp:y".toList] "*".toList = ["xy".toList]
    ∧ "xy".toList ≠ "xapp:y".toList :=
  ⟨rfl, by decide⟩

/-- Witness for the amended C7 at the spec's scenario: prefix "app:",
stored key "app:user:1", pattern "user:*" — the returned key is "user:1". -/
theorem c7_keys_witness :
    cmKeys true "app:".toList
        (["user:1".toList].map (fun k => "app:".toList ++ k)) "user:*".toList
      = ["user:1".toList].filter
          (fun k => globMatch ("app:".toList ++ "user:*".toList)
            ("app:".toList ++ k)) :=
  c7_keys_amended "app:".toList "user:*".toList ["user:1".toList]
    (by decide) (by decide)

/-- C3: with a configured cache manager and no `cache_condition`, for any
wrapped operation and any argument whose result the cache can store and
retrieve (the serialization round-trips and the result is not `None`),
starting from a store where the derived key is absent: the first invocation
calls the wrapped operation and returns its result; a second invocation
with the same argument within the TTL window returns the same value from
the cache without calling the wrapped operation — one call in total. -/
theorem c3_cached_single_invocation {α V : Type} (keyPre : List Char)
    (dflt : Nat) (ser : Option V → List Char) (deser : List Char → Option V)
    (ttl : Option Nat) (keyFn : α → List Char) (f : α → Option V)
    (st : List REntry) (x : α) (now1 now2 : Nat)
    (hmiss : rGet now1 st (keyPre ++ keyFn x) = none)
    (hround : deser (ser (f x)) = f x)
    (hsome : (f x).isSome = true)
    (hwin : now2 < now1 + effTtl ttl dflt) :
    (cachedInvoke true keyPre dflt ser deser ttl keyFn none f now1 st x).1 = f x
    ∧ (cachedInvoke true keyPre dflt ser deser ttl keyFn none f now1 st x).2.2 = true
    ∧ (cachedInvoke true keyPre dflt ser deser ttl keyFn none f now2
        (cachedInvoke true keyPre dflt ser deser ttl keyFn none f now1 st x).2.1 x).1
        = f x
    ∧ (cachedInvoke true keyPre dflt ser deser ttl keyFn none f now2
        (cachedInvoke true keyPre dflt ser deser ttl keyFn none f now1 st x).2.1 x).2.2
        = false := by
  have h1 : cachedInvoke true keyPre dflt ser deser ttl keyFn none f now1 st x
      = (f x, rSet now1 (effTtl ttl dflt) (keyPre ++ keyFn x) (ser (f x)) st,
         true) := by
    simp [cachedInvoke, cmGetRaw, cmSet, hmiss]
  have hget2 : rGet now2
      (rSet now1 (effTtl ttl dflt) (keyPre ++ keyFn x) (ser (f x)) st)
      (keyPre ++ keyFn x) = some (ser (f x)) := by
    simp [rGet, rSet, rFind, List.find?, rLive, hwin]
  obtain ⟨v, hv⟩ := Option.isSome_iff_exists.mp hsome
  have h2 : cachedInvoke true keyPre dflt ser deser ttl keyFn none f now2
      (rSet now1 (effTtl ttl dflt) (keyPre ++ keyFn x) (ser (f x)) st) x
      = (f x, rSet now1 (effTtl ttl dflt) (keyPre ++ keyFn x) (ser (f x)) st,
         false) := by
    simp only [cachedInvoke, cmGetRaw, hget2, hround, if_true]
    rw [hv]
    simp
  rw [h1]
  exact ⟨rfl, rfl, by rw [h2], by rw [h2]⟩

/-- Witness for C3 at a concrete instance: a unit-valued operation cached
under key "k" with prefix "app:", TTL 60, first call at time 0 on the empty
store, second call at time 1. -/
theorem c3_cached_witness :
    (cachedInvoke true "app:".toList 3600 wSer wDeser (some 60)
        (fun _ => ['k']) none (fun _ => some ()) 0 [] ()).1 = some ()
    ∧ (cachedInvoke true "app:".toList 3600 wSer wDeser (some 60)
        (fun _ => ['k']) none (fun _ => some ()) 0 [] ()).2.2 = true
    ∧ (cachedInvoke true "app:".toList 3600 wSer wDeser (some 60)
        (fun _ => ['k']) none (fun _ => some ()) 1
        (cachedInvoke true "app:".toList 3600 wSer wDeser (some 60)
          (fun _ => ['k']) none (fun _ => some ()) 0 [] ()).2.1 ()).1 = some ()
    ∧ (cachedInvoke true "app:".toList 3600 wSer wDeser (some 60)
        (fun _ => ['k']) none (fun _ => some ()) 1
        (cachedInvoke true "app:".toList 3600 wSer wDeser (some 60)
          (fun _ => ['k']) none (fun _ => some ()) 0 [] ()).2.1 ()).2.2 = false :=
  c3_cached_single_invocation "app:".toList 3600 wSer wDeser (some 60)
    (fun _ => ['k']) (fun _ => some ()) [] () 0 1 rfl rfl rfl (by decide)

theorem db_create_backup_id (env : BackupEnv) (bt : BackupType) (fs : FS) :
    (db_create_backup env bt fs).1.backup_id
      = "db_".toList ++ bt.value ++ "_".toList ++ env.tsStr := by
  rcases henv : env.pgDumpRes with e | d <;>
    simp only [db_create_backup, henv]
  split <;> split <;> rfl

theorem file_create_backup_id (env : BackupEnv) (bt : BackupType) (fs : FS) :
    (file_create_backup env bt fs).1.backup_id
      = "files_".toList ++ bt.value ++ "_".toList ++ env.tsStr := by
  rcases henv : env.fileCopyRes with e | c <;>
    simp only [file_create_backup, henv]

/-- C1: `create_full_backup` always returns exactly two records, the
database record first and the file record second, whatever each
sub-operation's outcome; a failed sub-operation yields a `failed` record
carrying the error message in its metadata instead of raising (in
particular, a failed dump with a successful file copy yields
[failed, success]); and both records are appended to the catalog, so a
later `list_backups` shows them. -/
theorem c1_create_full_backup (env : BackupEnv) (w : BackupWorld) :
    ∃ dbRec fbRec,
      (create_full_backup env w).1 = [dbRec, fbRec]
      ∧ leadsWith "db_full_".toList dbRec.backup_id = true
      ∧ leadsWith "files_full_".toList fbRec.backup_id = true
      ∧ (∀ e, env.pgDumpRes = .error e →
          dbRec.status = .failed ∧ ("error".toList, e) ∈ dbRec.metadata)
      ∧ (∀ d, env.pgDumpRes = .ok d → dbRec.status = .success)
      ∧ (∀ e, env.fileCopyRes = .error e →
          fbRec.status = .failed ∧ ("error".toList, e) ∈ fbRec.metadata)
      ∧ (∀ c, env.fileCopyRes = .ok c → fbRec.status = .success)
      ∧ (create_full_backup env w).2.catalog
          = w.catalog ++ (create_full_backup env w).1 := by
  refine ⟨(db_create_backup env .full w.fs).1,
    (file_create_backup env .full (db_create_backup env .full w.fs).2).1,
    rfl, ?_, ?_, ?_, ?_, ?_, ?_, rfl⟩
  · rw [db_create_backup_id]
    exact leadsWith_append "db_full_".toList env.tsStr
  · rw [file_create_backup_id]
    exact leadsWith_append "files_full_".toList env.tsStr
  · intro e he
    simp [db_create_backup, he]
  · intro d hd
    simp only [db_create_backup, hd]
    split <;> split <;> rfl
  · intro e he
    simp [file_create_backup, he]
  · intro c hc
    simp [file_create_backup, hc]
